import Mathlib

/-!
Shallow embedding of `src/backend/src/routes/assemble.py` (the
`assemble_video_endpoint` handler of the sloper repository), together with
theorems checking the specification's claims about it.

Modelling conventions:
* Python byte strings (`bytes`) are `List Nat`; only their length and identity
  matter to the handler.
* Python floats (scene durations, the engine-reported duration, elapsed wall
  time) are `Rat`.  All float arithmetic the handler performs on sizes divides
  by powers of two (`total_size / 1024 / 1024`), which is exact on IEEE
  doubles for every realistic size, so exact rational arithmetic with
  round-half-even decimal formatting reproduces Python's `:.1f` / `:.0f`
  formatting faithfully.
* The external engine (`..services.ffmpeg.assemble_video`) and the system
  clock are non-deterministic collaborators: they enter the model as explicit
  oracle parameters (`EngineBehavior`, `Date`, the CPython object id used for
  the persistent output file).
* Filesystem effects are made explicit in the handler's result: the final
  state of the per-request workspace (`tempfile.TemporaryDirectory`), the
  list of asset files ever written into it, and the files left in the
  process-wide system temp directory.  Paths inside the workspace are recorded
  relative to the workspace root (the unique `tmpdir` prefix is per-request
  and common to all of them).
-/

namespace Sloper

/-- `Resolution` field of `AssemblyMetadata` (from `..models.requests`). -/
structure Resolution where
  width : Int
  height : Int
deriving Repr, DecidableEq

/-- One scene of the assembly metadata: its image display duration in seconds. -/
structure SceneSpec where
  imageDuration : Rat
deriving Repr, DecidableEq

/-- The parsed assembly metadata (`AssemblyMetadata.model_validate_json` result). -/
structure AssemblyMetadata where
  scenes : List SceneSpec
  resolution : Resolution
  frameRate : Rat
deriving Repr, DecidableEq

/-- `MAX_UPLOAD_SIZE_BYTES = 32 * 1024 * 1024` (assemble.py line 20). -/
def MAX_UPLOAD_SIZE_BYTES : Nat := 32 * 1024 * 1024

/-- Modelled from the spec: the outcome of one call of the external engine
`assemble_video` (its source, `src/backend/src/services/ffmpeg.py`, is not
under `src/`).  Per spec section 6 the engine either returns the realized
duration in seconds (having written the output artifact), or raises
missing-input (surfaced to the handler as `FileNotFoundError`) or
engine-failure (surfaced as `RuntimeError`); `raiseOther` models any
unanticipated exception escaping the call. -/
inductive EngineOutcome where
  | ok (duration : Rat) (outputBytes : List Nat)
  | raiseFileNotFound (msg : String)
  | raiseRuntimeError (msg : String)
  | raiseOther (msg : String)
deriving Repr, DecidableEq

/-- One engine invocation as observed by the handler: how many wall-clock
seconds it would need, and what it does if allowed to finish.
`asyncio.wait_for(..., timeout=300)` cancels it when `elapsed > 300`. -/
structure EngineBehavior where
  elapsed : Rat
  outcome : EngineOutcome
deriving Repr, DecidableEq

/-- A calendar date, for `date.today()`. -/
structure Date where
  year : Nat
  month : Nat
  day : Nat
deriving Repr, DecidableEq

def pad2 (n : Nat) : String :=
  if n < 10 then "0" ++ toString n else toString n

def pad4 (n : Nat) : String :=
  if n < 10 then "000" ++ toString n
  else if n < 100 then "00" ++ toString n
  else if n < 1000 then "0" ++ toString n
  else toString n

/-- Python `date.isoformat()`: `YYYY-MM-DD`, zero padded. -/
def Date.isoformat (d : Date) : String :=
  pad4 d.year ++ "-" ++ pad2 d.month ++ "-" ++ pad2 d.day

/-- Round `n / d` to the nearest integer, ties to even — the rounding Python's
float formatting applies to the (here exact) value being printed. -/
def roundHalfEven (n d : Nat) : Nat :=
  let q := n / d
  let r := n % d
  if 2 * r < d then q
  else if d < 2 * r then q + 1
  else if q % 2 = 0 then q else q + 1

/-- Python `f-string` fragment `val / 1024 / 1024` formatted `:.1f`, for an
integer byte count `val`: one decimal digit, round half even.  Exact for the
reachable range because dividing a float by `2 ** 20` is exact. -/
def pyFmtMB1 (n : Nat) : String :=
  let t := roundHalfEven (n * 10) (1024 * 1024)
  toString (t / 10) ++ "." ++ toString (t % 10)

/-- Python `f-string` fragment `val / 1024 / 1024` formatted `:.0f`: rounded
to an integer, no decimal point. -/
def pyFmtMB0 (n : Nat) : String :=
  toString (roundHalfEven n (1024 * 1024))

def padZeros (k : Nat) (s : String) : String :=
  if s.length < k then String.mk (List.replicate (k - s.length) '0') ++ s else s

/-- Python `str()` of a float, on the rational model of floats: the shortest
exact decimal rendering of the value (floats are dyadic, so the minimal `k`
with `den ∣ 10 ^ k` exists and the rendering terminates with a nonzero last
digit, like CPython's shortest round-trip repr); integral values print a
trailing `.0` as CPython does. -/
def pyFloatStr (q : Rat) : String :=
  let sign := if q.num < 0 then "-" else ""
  match (List.range 60).find? (fun k => 10 ^ k % q.den = 0) with
  | some 0 => sign ++ toString q.num.natAbs ++ ".0"
  | some (k + 1) =>
      let scaled := q.num.natAbs * 10 ^ (k + 1) / q.den
      sign ++ toString (scaled / 10 ^ (k + 1)) ++ "."
        ++ padZeros (k + 1) (toString (scaled % 10 ^ (k + 1)))
  | none => toString q

/-- Workspace-relative staging path of image `i`: `f"image_(i).jpg"` with the
index interpolated (assemble.py line 92). -/
def imagePath (i : Nat) : String := "image_" ++ toString i ++ ".jpg"

/-- Workspace-relative staging path of audio clip `i`: `f"audio_(i).mp3"`
(assemble.py line 100). -/
def audioPath (i : Nat) : String := "audio_" ++ toString i ++ ".mp3"

/-- The files the staging loops write for the images, in write order. -/
def stagedImageFiles (images : List (List Nat)) : List (String × List Nat) :=
  images.enum.map (fun p => (imagePath p.1, p.2))

/-- The files the staging loops write for the audio clips, in write order. -/
def stagedAudioFiles (audio : List (List Nat)) : List (String × List Nat) :=
  audio.enum.map (fun p => (audioPath p.1, p.2))

/-- `total_size` accumulated over both staging loops. -/
def totalSize (images audio : List (List Nat)) : Nat :=
  (images.map List.length).sum + (audio.map List.length).sum

/-- The keyword arguments of the `assemble_video` engine call
(assemble.py lines 133-140); the path arguments are workspace-relative. -/
structure EngineArgs where
  image_paths : List String
  audio_paths : List String
  scene_durations : List Rat
  resolution : Int × Int
  frame_rate : Rat
  output_path : String
deriving Repr, DecidableEq

/-- The `FileResponse` returned on success (assemble.py lines 170-179). -/
structure SuccessResponse where
  path : String
  media_type : String
  filename : String
  headers : List (String × String)
  fileBytes : List Nat
  background : Option Unit
deriving Repr, DecidableEq

/-- The single terminal outcome of one request: a success response, or an
`HTTPException` with status code, error code and message. -/
inductive Outcome where
  | success (r : SuccessResponse)
  | failure (status : Nat) (error : String) (message : String)
deriving Repr, DecidableEq

/-- Everything observable about one handler run: the outcome plus the final
filesystem state and the engine invocation, if any. -/
structure HandlerResult where
  outcome : Outcome
  /-- whether the per-request workspace directory still exists afterwards -/
  workspaceExists : Bool
  /-- the files remaining in the workspace afterwards -/
  workspaceFiles : List (String × List Nat)
  /-- every asset file the staging loops wrote into the workspace, in order -/
  everStaged : List (String × List Nat)
  /-- files left in the process-wide system temp dir, outside the workspace -/
  globalTmpFiles : List (String × List Nat)
  /-- the arguments of the engine call, when one was made -/
  invoked : Option EngineArgs
deriving Repr, DecidableEq

/-- Shallow embedding of `assemble_video_endpoint` (assemble.py lines 24-200).
`metadata` is the result of `AssemblyMetadata.model_validate_json` (parsing
itself is the external pydantic collaborator), `objId` is the CPython
`id(video_content)` value used to name the persistent output copy, and
`today` is `date.today()`.  The `with tempfile.TemporaryDirectory()` block
removes the workspace and its contents on every exit path, so every branch
reached after its entry reports `workspaceExists := false`,
`workspaceFiles := []`; branches before its entry never create it. -/
def assemble_video_endpoint (metadata : Except String AssemblyMetadata)
    (images : List (List Nat)) (audio : List (List Nat))
    (engine : EngineBehavior) (today : Date) (objId : Nat) : HandlerResult :=
  match metadata with
  | .error e =>
      { outcome := .failure 400 "INVALID_METADATA" ("Invalid metadata JSON: " ++ e)
        workspaceExists := false, workspaceFiles := [], everStaged := []
        globalTmpFiles := [], invoked := none }
  | .ok meta =>
      let expected_count := meta.scenes.length
      if images.length ≠ expected_count then
        { outcome := .failure 400 "INVALID_REQUEST"
            ("Expected " ++ toString expected_count ++ " images, got "
              ++ toString images.length)
          workspaceExists := false, workspaceFiles := [], everStaged := []
          globalTmpFiles := [], invoked := none }
      else if audio.length ≠ expected_count then
        { outcome := .failure 400 "INVALID_REQUEST"
            ("Expected " ++ toString expected_count ++ " audio files, got "
              ++ toString audio.length)
          workspaceExists := false, workspaceFiles := [], everStaged := []
          globalTmpFiles := [], invoked := none }
      else
        -- with tempfile.TemporaryDirectory() as tmpdir:
        let staged := stagedImageFiles images ++ stagedAudioFiles audio
        let total_size := totalSize images audio
        if total_size > MAX_UPLOAD_SIZE_BYTES then
          { outcome := .failure 413 "PAYLOAD_TOO_LARGE"
              ("Total upload size " ++ pyFmtMB1 total_size
                ++ " MB exceeds limit of " ++ pyFmtMB0 MAX_UPLOAD_SIZE_BYTES ++ " MB")
            workspaceExists := false, workspaceFiles := [], everStaged := staged
            globalTmpFiles := [], invoked := none }
        else
          let args : EngineArgs :=
            { image_paths := images.enum.map (fun p => imagePath p.1)
              audio_paths := audio.enum.map (fun p => audioPath p.1)
              scene_durations := meta.scenes.map SceneSpec.imageDuration
              resolution := (meta.resolution.width, meta.resolution.height)
              frame_rate := meta.frameRate
              output_path := "output.mp4" }
          if engine.elapsed > 300 then
            -- asyncio.TimeoutError from wait_for(..., timeout=300)
            { outcome := .failure 504 "TIMEOUT" "Video assembly timed out"
              workspaceExists := false, workspaceFiles := [], everStaged := staged
              globalTmpFiles := [], invoked := some args }
          else
            match engine.outcome with
            | .ok duration outputBytes =>
                let filename := "slop-video-" ++ today.isoformat ++ ".mp4"
                -- video_content = output_path.read_bytes(), before the
                -- workspace is torn down
                let video_content := outputBytes
                let final_output := "output_" ++ toString objId ++ ".mp4"
                { outcome := .success
                    { path := final_output
                      media_type := "video/mp4"
                      filename := filename
                      headers :=
                        [("X-Video-Duration", pyFloatStr duration),
                         ("Content-Disposition",
                           "attachment; filename=\"" ++ filename ++ "\"")]
                      fileBytes := video_content
                      background := none }
                  workspaceExists := false, workspaceFiles := []
                  everStaged := staged
                  globalTmpFiles := [(final_output, video_content)]
                  invoked := some args }
            | .raiseFileNotFound msg =>
                { outcome := .failure 400 "MISSING_FILES" msg
                  workspaceExists := false, workspaceFiles := [], everStaged := staged
                  globalTmpFiles := [], invoked := some args }
            | .raiseRuntimeError msg =>
                { outcome := .failure 500 "FFMPEG_ERROR" msg
                  workspaceExists := false, workspaceFiles := [], everStaged := staged
                  globalTmpFiles := [], invoked := some args }
            | .raiseOther msg =>
                { outcome := .failure 500 "INTERNAL_ERROR" msg
                  workspaceExists := false, workspaceFiles := [], everStaged := staged
                  globalTmpFiles := [], invoked := some args }

/-- A concrete oversized asset for witnesses: 32 MiB + 1 zero bytes.  Kept as
a named constant so proofs reason about its length without materialising it. -/
def oversizedBytes : List Nat := List.replicate 33554433 0

/-- The specification's claimed shape of the PAYLOAD_TOO_LARGE message: both
the observed total and the limit rendered in MB with one decimal place.  This
follows the spec's words (claim C5), to be compared with the handler. -/
def c5SpecClaim : Prop :=
  ∀ (meta : AssemblyMetadata) (images audio : List (List Nat))
    (engine : EngineBehavior) (today : Date) (objId : Nat),
    images.length = meta.scenes.length →
    audio.length = meta.scenes.length →
    totalSize images audio > MAX_UPLOAD_SIZE_BYTES →
    (assemble_video_endpoint (.ok meta) images audio engine today objId).outcome
        = .failure 413 "PAYLOAD_TOO_LARGE"
            ("Total upload size " ++ pyFmtMB1 (totalSize images audio)
              ++ " MB exceeds limit of " ++ pyFmtMB1 MAX_UPLOAD_SIZE_BYTES ++ " MB")

/-- Image staging paths and audio staging paths never collide: an image path
starts with the byte `i`, an audio path with the byte `a`. -/
theorem imagePath_ne_audioPath (i j : Nat) : imagePath i ≠ audioPath j := by
  intro h
  have hi : (imagePath i).data.head? = some 'i' := rfl
  have hj : (audioPath j).data.head? = some 'a' := rfl
  rw [h, hj] at hi
  exact absurd hi (by decide)

/-- C1: for every request, after the handler produces its Outcome (success or
any failure), the per-request staging workspace and every file written into it
no longer exist; and whenever the outcome is a success, the delivered artifact
bytes are exactly the bytes the engine wrote into the workspace, read out
before the workspace was destroyed. -/
theorem c1_workspace_cleanup (metadata : Except String AssemblyMetadata)
    (images audio : List (List Nat)) (engine : EngineBehavior)
    (today : Date) (objId : Nat) :
    (assemble_video_endpoint metadata images audio engine today objId).workspaceExists
        = false ∧
    (assemble_video_endpoint metadata images audio engine today objId).workspaceFiles
        = [] ∧
    (∀ r, (assemble_video_endpoint metadata images audio engine today objId).outcome
        = .success r →
      ∃ d b, engine.outcome = .ok d b ∧ r.fileBytes = b) := by
  obtain ⟨el, eo⟩ := engine
  cases metadata with
  | error e => simp [assemble_video_endpoint]
  | ok meta =>
      simp only [assemble_video_endpoint]
      split_ifs <;> cases eo <;> simp_all [Outcome.success.injEq]

/-- C1 witness at a concrete request. -/
theorem c1_workspace_cleanup_witness :
    (assemble_video_endpoint (.ok ⟨[⟨2⟩], ⟨1920, 1080⟩, 30⟩) [[1]] [[2]]
        ⟨10, .ok (7/2) [9, 9]⟩ ⟨2026, 10, 12⟩ 5).workspaceExists = false ∧
    (assemble_video_endpoint (.ok ⟨[⟨2⟩], ⟨1920, 1080⟩, 30⟩) [[1]] [[2]]
        ⟨10, .ok (7/2) [9, 9]⟩ ⟨2026, 10, 12⟩ 5).workspaceFiles = [] ∧
    (∀ r, (assemble_video_endpoint (.ok ⟨[⟨2⟩], ⟨1920, 1080⟩, 30⟩) [[1]] [[2]]
        ⟨10, .ok (7/2) [9, 9]⟩ ⟨2026, 10, 12⟩ 5).outcome = .success r →
      ∃ d b, (EngineBehavior.mk 10 (.ok (7/2) [9, 9])).outcome = .ok d b
        ∧ r.fileBytes = b) :=
  c1_workspace_cleanup (.ok ⟨[⟨2⟩], ⟨1920, 1080⟩, 30⟩) [[1]] [[2]]
    ⟨10, .ok (7/2) [9, 9]⟩ ⟨2026, 10, 12⟩ 5

/-- C2: if the engine invocation exceeds the 300-second deadline measured from
invocation start, the outcome is the TIMEOUT failure with HTTP status 504, and
no output artifact is delivered or left behind as a valid result. -/
theorem c2_timeout_504 (meta : AssemblyMetadata) (images audio : List (List Nat))
    (engine : EngineBehavior) (today : Date) (objId : Nat)
    (himg : images.length = meta.scenes.length)
    (haud : audio.length = meta.scenes.length)
    (hsize : totalSize images audio ≤ MAX_UPLOAD_SIZE_BYTES)
    (ht : engine.elapsed > 300) :
    (assemble_video_endpoint (.ok meta) images audio engine today objId).outcome
        = .failure 504 "TIMEOUT" "Video assembly timed out" ∧
    (assemble_video_endpoint (.ok meta) images audio engine today objId).globalTmpFiles
        = [] := by
  have hsz : ¬ totalSize images audio > MAX_UPLOAD_SIZE_BYTES := by omega
  simp [assemble_video_endpoint, himg, haud, hsz, ht]

/-- C2 witness: a 301-second engine run on a well-formed one-scene request. -/
theorem c2_timeout_504_witness :
    (assemble_video_endpoint (.ok ⟨[⟨2⟩], ⟨1920, 1080⟩, 30⟩) [[1]] [[2]]
        ⟨301, .ok 7 [9]⟩ ⟨2026, 10, 12⟩ 1).outcome
        = .failure 504 "TIMEOUT" "Video assembly timed out" ∧
    (assemble_video_endpoint (.ok ⟨[⟨2⟩], ⟨1920, 1080⟩, 30⟩) [[1]] [[2]]
        ⟨301, .ok 7 [9]⟩ ⟨2026, 10, 12⟩ 1).globalTmpFiles = [] :=
  c2_timeout_504 ⟨[⟨2⟩], ⟨1920, 1080⟩, 30⟩ [[1]] [[2]] ⟨301, .ok 7 [9]⟩
    ⟨2026, 10, 12⟩ 1 rfl rfl (by decide) (by norm_num)

/-- C3: when the image count or the audio count disagrees with the scene
count, the outcome is the INVALID_REQUEST failure whose message states
expected versus actual count; images are checked before audio, so on a double
mismatch only the image message is reported; and no asset is staged and the
engine is never invoked. -/
theorem c3_count_mismatch (meta : AssemblyMetadata) (images audio : List (List Nat))
    (engine : EngineBehavior) (today : Date) (objId : Nat) :
    (images.length ≠ meta.scenes.length →
      (assemble_video_endpoint (.ok meta) images audio engine today objId).outcome
          = .failure 400 "INVALID_REQUEST"
              ("Expected " ++ toString meta.scenes.length ++ " images, got "
                ++ toString images.length)) ∧
    (images.length = meta.scenes.length → audio.length ≠ meta.scenes.length →
      (assemble_video_endpoint (.ok meta) images audio engine today objId).outcome
          = .failure 400 "INVALID_REQUEST"
              ("Expected " ++ toString meta.scenes.length ++ " audio files, got "
                ++ toString audio.length)) ∧
    ((images.length ≠ meta.scenes.length ∨ audio.length ≠ meta.scenes.length) →
      (assemble_video_endpoint (.ok meta) images audio engine today objId).everStaged
          = [] ∧
      (assemble_video_endpoint (.ok meta) images audio engine today objId).invoked
          = none) := by
  refine ⟨fun h => by simp [assemble_video_endpoint, h], ?_, ?_⟩
  · intro h1 h2
    simp [assemble_video_endpoint, h1, h2]
  · rintro (h | h)
    · simp [assemble_video_endpoint, h]
    · by_cases h2 : images.length = meta.scenes.length
      · simp [assemble_video_endpoint, h2, h]
      · simp [assemble_video_endpoint, h2]

/-- C3 witness: one declared scene, two images and zero audio files supplied;
the image mismatch is the one reported even though both counts mismatch. -/
theorem c3_count_mismatch_witness :
    (assemble_video_endpoint (.ok ⟨[⟨2⟩], ⟨1920, 1080⟩, 30⟩) [[1], [2]] []
        ⟨10, .ok 7 [9]⟩ ⟨2026, 10, 12⟩ 1).outcome
        = .failure 400 "INVALID_REQUEST" "Expected 1 images, got 2" ∧
    (assemble_video_endpoint (.ok ⟨[⟨2⟩], ⟨1920, 1080⟩, 30⟩) [[1], [2]] []
        ⟨10, .ok 7 [9]⟩ ⟨2026, 10, 12⟩ 1).everStaged = [] ∧
    (assemble_video_endpoint (.ok ⟨[⟨2⟩], ⟨1920, 1080⟩, 30⟩) [[1], [2]] []
        ⟨10, .ok 7 [9]⟩ ⟨2026, 10, 12⟩ 1).invoked = none := by
  refine ⟨?_, ?_⟩
  · have h := (c3_count_mismatch ⟨[⟨2⟩], ⟨1920, 1080⟩, 30⟩ [[1], [2]] []
      ⟨10, .ok 7 [9]⟩ ⟨2026, 10, 12⟩ 1).1 (by decide)
    simpa using h
  · exact (c3_count_mismatch ⟨[⟨2⟩], ⟨1920, 1080⟩, 30⟩ [[1], [2]] []
      ⟨10, .ok 7 [9]⟩ ⟨2026, 10, 12⟩ 1).2.2 (Or.inl (by decide))

/-- C4: when the summed image and audio byte lengths exceed 32 MiB, the
outcome is the PAYLOAD_TOO_LARGE failure with HTTP status 413 — no matter how
small each individual asset is — and the engine is never invoked. -/
theorem c4_payload_too_large (meta : AssemblyMetadata) (images audio : List (List Nat))
    (engine : EngineBehavior) (today : Date) (objId : Nat)
    (himg : images.length = meta.scenes.length)
    (haud : audio.length = meta.scenes.length)
    (hsz : totalSize images audio > MAX_UPLOAD_SIZE_BYTES) :
    (∃ msg, (assemble_video_endpoint (.ok meta) images audio engine today objId).outcome
        = .failure 413 "PAYLOAD_TOO_LARGE" msg) ∧
    (assemble_video_endpoint (.ok meta) images audio engine today objId).invoked
        = none := by
  simp [assemble_video_endpoint, himg, haud, hsz]

/-- The byte length of the oversized witness asset. -/
theorem oversizedBytes_length : oversizedBytes.length = 33554433 := by
  unfold oversizedBytes
  exact List.length_replicate _ _

/-- `totalSize` of a one-image, one-audio request. -/
theorem totalSize_single (a b : List Nat) :
    totalSize [a] [b] = a.length + b.length := by
  simp [totalSize]

/-- The total staged size of the oversized witness request: one image of
32 MiB + 1 bytes and one empty audio file. -/
theorem totalSize_oversized : totalSize [oversizedBytes] [[]] = 33554433 := by
  rw [totalSize_single, oversizedBytes_length, List.length_nil]

/-- The oversized witness request exceeds the 32 MiB ceiling. -/
theorem totalSize_oversized_gt :
    totalSize [oversizedBytes] [[]] > MAX_UPLOAD_SIZE_BYTES := by
  rw [totalSize_oversized]
  norm_num [MAX_UPLOAD_SIZE_BYTES]

/-- C4 witness: a single image of 32 MiB + 1 bytes (each asset individually
is just one file) plus an empty audio file pushes the total over the limit. -/
theorem c4_payload_too_large_witness :
    (∃ msg, (assemble_video_endpoint (.ok ⟨[⟨2⟩], ⟨1920, 1080⟩, 30⟩)
        [oversizedBytes] [[]] ⟨10, .ok 7 [9]⟩ ⟨2026, 10, 12⟩ 1).outcome
        = .failure 413 "PAYLOAD_TOO_LARGE" msg) ∧
    (assemble_video_endpoint (.ok ⟨[⟨2⟩], ⟨1920, 1080⟩, 30⟩)
        [oversizedBytes] [[]] ⟨10, .ok 7 [9]⟩ ⟨2026, 10, 12⟩ 1).invoked
        = none :=
  c4_payload_too_large ⟨[⟨2⟩], ⟨1920, 1080⟩, 30⟩ [oversizedBytes] [[]]
    ⟨10, .ok 7 [9]⟩ ⟨2026, 10, 12⟩ 1 rfl rfl totalSize_oversized_gt

/-- C5 counterexample: the handler renders the limit with `:.0f` (as `32`),
not with one decimal place (`32.0`) as the claim states, so the claimed
message shape is wrong at any oversized request. -/
theorem c5_counterexample : ¬ c5SpecClaim := by
  intro h
  have hspec := h ⟨[⟨2⟩], ⟨1920, 1080⟩, 30⟩ [oversizedBytes] [[]]
    ⟨10, .ok 7 [9]⟩ ⟨2026, 10, 12⟩ 1 rfl rfl totalSize_oversized_gt
  have hcode : (assemble_video_endpoint (.ok ⟨[⟨2⟩], ⟨1920, 1080⟩, 30⟩)
      [oversizedBytes] [[]] ⟨10, .ok 7 [9]⟩ ⟨2026, 10, 12⟩ 1).outcome
      = .failure 413 "PAYLOAD_TOO_LARGE"
          ("Total upload size " ++ pyFmtMB1 (totalSize [oversizedBytes] [[]])
            ++ " MB exceeds limit of " ++ pyFmtMB0 MAX_UPLOAD_SIZE_BYTES ++ " MB") := by
    simp [assemble_video_endpoint, totalSize_oversized_gt]
  rw [hspec, totalSize_oversized] at hcode
  simp only [Outcome.failure.injEq] at hcode
  exact absurd hcode.2.2 (by decide)

/-- Every observed-size rendering `pyFmtMB1` ends in a decimal point followed
by exactly one digit. -/
theorem pyFmtMB1_one_decimal (n : Nat) :
    ∃ s, pyFmtMB1 n
        = toString (roundHalfEven (n * 10) (1024 * 1024) / 10) ++ "." ++ s
      ∧ s.length = 1 := by
  refine ⟨toString (roundHalfEven (n * 10) (1024 * 1024) % 10), rfl, ?_⟩
  have h : roundHalfEven (n * 10) (1024 * 1024) % 10 < 10 :=
    Nat.mod_lt _ (by norm_num)
  generalize roundHalfEven (n * 10) (1024 * 1024) % 10 = m at h
  interval_cases m <;> rfl

/-- C5 amended: the PAYLOAD_TOO_LARGE message reports the observed total in
MB with one decimal place but the limit in MB rounded to an integer with no
decimal place (it reads `32 MB`, not `32.0 MB`). -/
theorem c5_amended_message (meta : AssemblyMetadata) (images audio : List (List Nat))
    (engine : EngineBehavior) (today : Date) (objId : Nat)
    (himg : images.length = meta.scenes.length)
    (haud : audio.length = meta.scenes.length)
    (hsz : totalSize images audio > MAX_UPLOAD_SIZE_BYTES) :
    (assemble_video_endpoint (.ok meta) images audio engine today objId).outcome
        = .failure 413 "PAYLOAD_TOO_LARGE"
            ("Total upload size " ++ pyFmtMB1 (totalSize images audio)
              ++ " MB exceeds limit of " ++ pyFmtMB0 MAX_UPLOAD_SIZE_BYTES ++ " MB")
    ∧ pyFmtMB0 MAX_UPLOAD_SIZE_BYTES = "32"
    ∧ (∃ s, pyFmtMB1 (totalSize images audio)
        = toString (roundHalfEven (totalSize images audio * 10) (1024 * 1024) / 10)
          ++ "." ++ s ∧ s.length = 1) :=
  ⟨by simp [assemble_video_endpoint, himg, haud, hsz], by decide,
    pyFmtMB1_one_decimal _⟩

/-- C5 witness for the amended claim, at the oversized one-scene request. -/
theorem c5_amended_message_witness :
    (assemble_video_endpoint (.ok ⟨[⟨2⟩], ⟨1920, 1080⟩, 30⟩) [oversizedBytes] [[]]
        ⟨10, .ok 7 [9]⟩ ⟨2026, 10, 12⟩ 1).outcome
        = .failure 413 "PAYLOAD_TOO_LARGE"
            ("Total upload size " ++ pyFmtMB1 (totalSize [oversizedBytes] [[]])
              ++ " MB exceeds limit of " ++ pyFmtMB0 MAX_UPLOAD_SIZE_BYTES ++ " MB")
    ∧ pyFmtMB0 MAX_UPLOAD_SIZE_BYTES = "32"
    ∧ (∃ s, pyFmtMB1 (totalSize [oversizedBytes] [[]])
        = toString (roundHalfEven (totalSize [oversizedBytes] [[]] * 10) (1024 * 1024) / 10)
          ++ "." ++ s ∧ s.length = 1) :=
  c5_amended_message ⟨[⟨2⟩], ⟨1920, 1080⟩, 30⟩ [oversizedBytes] [[]]
    ⟨10, .ok 7 [9]⟩ ⟨2026, 10, 12⟩ 1 rfl rfl totalSize_oversized_gt

/-- C6: failures reported by the engine itself are classified distinctly from
a timeout: a missing referenced input path (`FileNotFoundError`) yields the
MISSING_FILES failure with HTTP status 400, and any other engine-reported
failure (`RuntimeError`) yields the FFMPEG_ERROR (EncodingError) failure with
HTTP status 500 carrying the engine's diagnostic text verbatim. -/
theorem c6_engine_failures (meta : AssemblyMetadata) (images audio : List (List Nat))
    (engine : EngineBehavior) (today : Date) (objId : Nat)
    (himg : images.length = meta.scenes.length)
    (haud : audio.length = meta.scenes.length)
    (hsize : totalSize images audio ≤ MAX_UPLOAD_SIZE_BYTES)
    (ht : engine.elapsed ≤ 300) :
    (∀ m, engine.outcome = .raiseFileNotFound m →
      (assemble_video_endpoint (.ok meta) images audio engine today objId).outcome
          = .failure 400 "MISSING_FILES" m) ∧
    (∀ m, engine.outcome = .raiseRuntimeError m →
      (assemble_video_endpoint (.ok meta) images audio engine today objId).outcome
          = .failure 500 "FFMPEG_ERROR" m) := by
  obtain ⟨el, eo⟩ := engine
  have hsz : ¬ totalSize images audio > MAX_UPLOAD_SIZE_BYTES := by omega
  have ht2 : ¬ ((300 : Rat) < el) := not_lt.mpr ht
  constructor <;> rintro m hm <;>
    (replace hm : eo = _ := hm; subst hm;
     simp [assemble_video_endpoint, himg, haud, hsz, ht2])

/-- C6 witness: a missing-file engine failure and a generic engine failure on
an otherwise well-formed one-scene request. -/
theorem c6_engine_failures_witness :
    (assemble_video_endpoint (.ok ⟨[⟨2⟩], ⟨1920, 1080⟩, 30⟩) [[1]] [[2]]
        ⟨10, .raiseFileNotFound "img missing"⟩ ⟨2026, 10, 12⟩ 1).outcome
        = .failure 400 "MISSING_FILES" "img missing" ∧
    (assemble_video_endpoint (.ok ⟨[⟨2⟩], ⟨1920, 1080⟩, 30⟩) [[1]] [[2]]
        ⟨10, .raiseRuntimeError "ffmpeg exited 1"⟩ ⟨2026, 10, 12⟩ 1).outcome
        = .failure 500 "FFMPEG_ERROR" "ffmpeg exited 1" :=
  ⟨(c6_engine_failures ⟨[⟨2⟩], ⟨1920, 1080⟩, 30⟩ [[1]] [[2]]
      ⟨10, .raiseFileNotFound "img missing"⟩ ⟨2026, 10, 12⟩ 1 rfl rfl (by decide)
      (by norm_num)).1 _ rfl,
   (c6_engine_failures ⟨[⟨2⟩], ⟨1920, 1080⟩, 30⟩ [[1]] [[2]]
      ⟨10, .raiseRuntimeError "ffmpeg exited 1"⟩ ⟨2026, 10, 12⟩ 1 rfl rfl (by decide)
      (by norm_num)).2 _ rfl⟩

/-- C7: on every successful run the response carries the artifact with
Content-Type `video/mp4`, the filename `slop-video-<ISO date>.mp4` for the
current calendar date, and the `X-Video-Duration` header holding the
engine-measured duration as a decimal string. -/
theorem c7_success_response (meta : AssemblyMetadata) (images audio : List (List Nat))
    (engine : EngineBehavior) (today : Date) (objId : Nat) (d : Rat) (outB : List Nat)
    (himg : images.length = meta.scenes.length)
    (haud : audio.length = meta.scenes.length)
    (hsize : totalSize images audio ≤ MAX_UPLOAD_SIZE_BYTES)
    (ht : engine.elapsed ≤ 300)
    (hok : engine.outcome = .ok d outB) :
    (assemble_video_endpoint (.ok meta) images audio engine today objId).outcome
        = .success
            { path := "output_" ++ toString objId ++ ".mp4"
              media_type := "video/mp4"
              filename := "slop-video-" ++ today.isoformat ++ ".mp4"
              headers :=
                [("X-Video-Duration", pyFloatStr d),
                 ("Content-Disposition",
                   "attachment; filename=\""
                     ++ ("slop-video-" ++ today.isoformat ++ ".mp4") ++ "\"")]
              fileBytes := outB
              background := none } := by
  obtain ⟨el, eo⟩ := engine
  have hsz : ¬ totalSize images audio > MAX_UPLOAD_SIZE_BYTES := by omega
  have ht2 : ¬ ((300 : Rat) < el) := not_lt.mpr ht
  replace hok : eo = _ := hok
  subst hok
  simp [assemble_video_endpoint, himg, haud, hsz, ht2]

/-- C7 witness: a successful 3.5-second video on 2026-10-12. -/
theorem c7_success_response_witness :
    (assemble_video_endpoint (.ok ⟨[⟨2⟩], ⟨1920, 1080⟩, 30⟩) [[1]] [[2]]
        ⟨10, .ok (7/2) [9, 9]⟩ ⟨2026, 10, 12⟩ 5).outcome
        = .success
            { path := "output_" ++ toString 5 ++ ".mp4"
              media_type := "video/mp4"
              filename := "slop-video-" ++ Date.isoformat ⟨2026, 10, 12⟩ ++ ".mp4"
              headers :=
                [("X-Video-Duration", pyFloatStr (7/2)),
                 ("Content-Disposition",
                   "attachment; filename=\""
                     ++ ("slop-video-" ++ Date.isoformat ⟨2026, 10, 12⟩ ++ ".mp4") ++ "\"")]
              fileBytes := [9, 9]
              background := none } :=
  c7_success_response ⟨[⟨2⟩], ⟨1920, 1080⟩, 30⟩ [[1]] [[2]]
    ⟨10, .ok (7/2) [9, 9]⟩ ⟨2026, 10, 12⟩ 5 (7/2) [9, 9] rfl rfl (by decide)
    (by norm_num) rfl

/-- Once both count checks pass, every branch of the handler has written the
full staged asset list into the workspace, whatever the engine then does. -/
theorem handler_everStaged (meta : AssemblyMetadata) (images audio : List (List Nat))
    (engine : EngineBehavior) (today : Date) (objId : Nat)
    (himg : images.length = meta.scenes.length)
    (haud : audio.length = meta.scenes.length) :
    (assemble_video_endpoint (.ok meta) images audio engine today objId).everStaged
        = stagedImageFiles images ++ stagedAudioFiles audio := by
  obtain ⟨el, eo⟩ := engine
  simp only [assemble_video_endpoint]
  split_ifs <;> cases eo <;> simp_all

/-- C8: every asset is staged at a path deterministically derived from its
kind and zero-based index (`image_<i>.jpg`, `audio_<i>.mp3`), image and audio
paths never collide, and the engine invocation receives exactly those paths in
scene order, so assets are addressable purely by kind and index. -/
theorem c8_staging_addressing (meta : AssemblyMetadata) (images audio : List (List Nat))
    (engine : EngineBehavior) (today : Date) (objId : Nat)
    (himg : images.length = meta.scenes.length)
    (haud : audio.length = meta.scenes.length) :
    (assemble_video_endpoint (.ok meta) images audio engine today objId).everStaged
        = images.enum.map (fun p => (imagePath p.1, p.2))
          ++ audio.enum.map (fun p => (audioPath p.1, p.2)) ∧
    (∀ i j, imagePath i ≠ audioPath j) ∧
    (∀ args, (assemble_video_endpoint (.ok meta) images audio engine today objId).invoked
        = some args →
      args.image_paths = images.enum.map (fun p => imagePath p.1) ∧
      args.audio_paths = audio.enum.map (fun p => audioPath p.1)) := by
  refine ⟨handler_everStaged meta images audio engine today objId himg haud, ?_, ?_⟩
  · exact fun i j => imagePath_ne_audioPath i j
  · obtain ⟨el, eo⟩ := engine
    simp only [assemble_video_endpoint]
    split_ifs <;> cases eo <;> simp_all

/-- C8 witness at a two-scene request. -/
theorem c8_staging_addressing_witness :
    (assemble_video_endpoint (.ok ⟨[⟨2⟩, ⟨3⟩], ⟨1920, 1080⟩, 30⟩) [[1], [2]] [[3], [4]]
        ⟨10, .ok 7 [9]⟩ ⟨2026, 10, 12⟩ 1).everStaged
        = ([[1], [2]] : List (List Nat)).enum.map (fun p => (imagePath p.1, p.2))
          ++ ([[3], [4]] : List (List Nat)).enum.map (fun p => (audioPath p.1, p.2)) ∧
    (∀ i j, imagePath i ≠ audioPath j) ∧
    (∀ args, (assemble_video_endpoint (.ok ⟨[⟨2⟩, ⟨3⟩], ⟨1920, 1080⟩, 30⟩)
        [[1], [2]] [[3], [4]] ⟨10, .ok 7 [9]⟩ ⟨2026, 10, 12⟩ 1).invoked = some args →
      args.image_paths
          = ([[1], [2]] : List (List Nat)).enum.map (fun p => imagePath p.1) ∧
      args.audio_paths
          = ([[3], [4]] : List (List Nat)).enum.map (fun p => audioPath p.1)) :=
  c8_staging_addressing ⟨[⟨2⟩, ⟨3⟩], ⟨1920, 1080⟩, 30⟩ [[1], [2]] [[3], [4]]
    ⟨10, .ok 7 [9]⟩ ⟨2026, 10, 12⟩ 1 rfl rfl

/-- C9: on every successful run the artifact bytes are additionally written
to a file in the process-wide system temp directory, outside the request
workspace, named from the runtime object identity (`output_<id>.mp4`); the
handler never deletes it (no background deletion task either), so it persists
after the request completes. -/
theorem c9_persistent_artifact_copy (meta : AssemblyMetadata)
    (images audio : List (List Nat)) (engine : EngineBehavior) (today : Date)
    (objId : Nat) (d : Rat) (outB : List Nat)
    (himg : images.length = meta.scenes.length)
    (haud : audio.length = meta.scenes.length)
    (hsize : totalSize images audio ≤ MAX_UPLOAD_SIZE_BYTES)
    (ht : engine.elapsed ≤ 300)
    (hok : engine.outcome = .ok d outB) :
    (assemble_video_endpoint (.ok meta) images audio engine today objId).globalTmpFiles
        = [("output_" ++ toString objId ++ ".mp4", outB)] ∧
    (assemble_video_endpoint (.ok meta) images audio engine today objId).workspaceExists
        = false ∧
    (∀ r, (assemble_video_endpoint (.ok meta) images audio engine today objId).outcome
        = .success r →
      r.path = "output_" ++ toString objId ++ ".mp4" ∧ r.fileBytes = outB
        ∧ r.background = none) := by
  obtain ⟨el, eo⟩ := engine
  have hsz : ¬ totalSize images audio > MAX_UPLOAD_SIZE_BYTES := by omega
  have ht2 : ¬ ((300 : Rat) < el) := not_lt.mpr ht
  replace hok : eo = _ := hok
  subst hok
  simp [assemble_video_endpoint, himg, haud, hsz, ht2, Outcome.success.injEq]

/-- C9 witness: the success run leaves `output_5.mp4` in the system temp dir. -/
theorem c9_persistent_artifact_copy_witness :
    (assemble_video_endpoint (.ok ⟨[⟨2⟩], ⟨1920, 1080⟩, 30⟩) [[1]] [[2]]
        ⟨10, .ok (7/2) [9, 9]⟩ ⟨2026, 10, 12⟩ 5).globalTmpFiles
        = [("output_" ++ toString 5 ++ ".mp4", [9, 9])] ∧
    (assemble_video_endpoint (.ok ⟨[⟨2⟩], ⟨1920, 1080⟩, 30⟩) [[1]] [[2]]
        ⟨10, .ok (7/2) [9, 9]⟩ ⟨2026, 10, 12⟩ 5).workspaceExists = false ∧
    (∀ r, (assemble_video_endpoint (.ok ⟨[⟨2⟩], ⟨1920, 1080⟩, 30⟩) [[1]] [[2]]
        ⟨10, .ok (7/2) [9, 9]⟩ ⟨2026, 10, 12⟩ 5).outcome = .success r →
      r.path = "output_" ++ toString 5 ++ ".mp4" ∧ r.fileBytes = [9, 9]
        ∧ r.background = none) :=
  c9_persistent_artifact_copy ⟨[⟨2⟩], ⟨1920, 1080⟩, 30⟩ [[1]] [[2]]
    ⟨10, .ok (7/2) [9, 9]⟩ ⟨2026, 10, 12⟩ 5 (7/2) [9, 9] rfl rfl (by decide)
    (by norm_num) rfl

/-- C10: the aggregate size ceiling is checked only after both staging loops
have run, so an oversized request still has every one of its assets written
in full to the workspace before the PAYLOAD_TOO_LARGE failure is raised. -/
theorem c10_staging_completes_before_size_check (meta : AssemblyMetadata)
    (images audio : List (List Nat)) (engine : EngineBehavior) (today : Date)
    (objId : Nat)
    (himg : images.length = meta.scenes.length)
    (haud : audio.length = meta.scenes.length)
    (hsz : totalSize images audio > MAX_UPLOAD_SIZE_BYTES) :
    (∃ msg, (assemble_video_endpoint (.ok meta) images audio engine today objId).outcome
        = .failure 413 "PAYLOAD_TOO_LARGE" msg) ∧
    (assemble_video_endpoint (.ok meta) images audio engine today objId).everStaged
        = stagedImageFiles images ++ stagedAudioFiles audio ∧
    (assemble_video_endpoint (.ok meta) images audio engine today objId).everStaged.length
        = images.length + audio.length := by
  refine ⟨by simp [assemble_video_endpoint, himg, haud, hsz],
    handler_everStaged meta images audio engine today objId himg haud, ?_⟩
  rw [handler_everStaged meta images audio engine today objId himg haud]
  simp [stagedImageFiles, stagedAudioFiles]

/-- C10 witness at the oversized one-scene request: both files (the 32 MiB + 1
byte image and the empty audio clip) are staged before the 413 failure. -/
theorem c10_staging_completes_before_size_check_witness :
    (∃ msg, (assemble_video_endpoint (.ok ⟨[⟨2⟩], ⟨1920, 1080⟩, 30⟩)
        [oversizedBytes] [[]] ⟨10, .ok 7 [9]⟩ ⟨2026, 10, 12⟩ 1).outcome
        = .failure 413 "PAYLOAD_TOO_LARGE" msg) ∧
    (assemble_video_endpoint (.ok ⟨[⟨2⟩], ⟨1920, 1080⟩, 30⟩)
        [oversizedBytes] [[]] ⟨10, .ok 7 [9]⟩ ⟨2026, 10, 12⟩ 1).everStaged
        = stagedImageFiles [oversizedBytes] ++ stagedAudioFiles [[]] ∧
    (assemble_video_endpoint (.ok ⟨[⟨2⟩], ⟨1920, 1080⟩, 30⟩)
        [oversizedBytes] [[]] ⟨10, .ok 7 [9]⟩ ⟨2026, 10, 12⟩ 1).everStaged.length
        = [oversizedBytes].length + ([[]] : List (List Nat)).length :=
  c10_staging_completes_before_size_check ⟨[⟨2⟩], ⟨1920, 1080⟩, 30⟩
    [oversizedBytes] [[]] ⟨10, .ok 7 [9]⟩ ⟨2026, 10, 12⟩ 1 rfl rfl
    totalSize_oversized_gt

end Sloper
